import Mathlib

/-!
Shallow embedding of `att_graph_runner/master_dq_runner.py`, the orchestration
core of the attackgraph double-oracle runner.  External collaborators
(subprocess invocations, lock and port files, the beneficial-deviation oracle)
are modelled as an environment of read-only oracles plus an observable event
trace: every side-effecting operation of the orchestrator appends an `Event`,
and every query reads the `Env`.  The modules imported by the source file
(`train_test_def`, `train_test_att`, `train_test_both`, `add_new_data`,
`check_if_beneficial`) are not part of this repository snapshot; the few facts
needed from them are modelled from the spec and are marked as such.
-/

namespace MasterDQ

/-- Static configuration of a run: the positional parameters of `main` in
`master_dq_runner.py`, minus the epoch counter and the round budget, which
vary during the run and are passed separately.  (`def_pkl_pfx`/`att_pkl_pfx`
are the source's `def_pkl_prefix`/`att_pkl_prefix`.) -/
structure Params where
  game_number : Nat
  env_short_name_tsv : String
  env_short_name_payoffs : String
  env_name_def_net : String
  env_name_att_net : String
  env_name_both : String
  graph_name : String
  env_name_vs_mixed_def : String
  env_name_vs_mixed_att : String
  new_col_count : Nat
  def_pkl_pfx : String
  att_pkl_pfx : String
  port_lock_name : String
  max_timesteps_def : Nat
  max_timesteps_att : Nat

/-- Modelled from the spec: the port constants `MIN_PORT`, `MAX_PORT` and
`PORTS_PER_ROUND` are imported by the source from `train_test_def`, a module
that is not in this repository snapshot.  The spec fixes no concrete values
(only that ports live in `[MIN_PORT, MAX_PORT)` and advance by the fixed
stride `PORTS_PER_ROUND`), so they are carried as parameters. -/
structure PortConfig where
  MIN_PORT : Nat
  MAX_PORT : Nat
  PORTS_PER_ROUND : Nat

/-- The read-only oracles behind the helpers the orchestrator consults:
lock queries (`is_def_unlocked`/`is_att_unlocked`), filesystem queries
(`os.path.isdir`, `os.path.exists`, `os.path.isfile`), the recorded port
(`read_def_port`), the beneficial-deviation oracle
(`check_if_beneficial.check_for_cli`), and the exit code each collaborator
process would report (keyed by its command list; the source discards the
return value of every `subprocess.call`). -/
structure Env where
  is_def_unlocked : String → Bool → Bool
  is_att_unlocked : String → Bool → Bool
  isdir : String → Bool
  path_exists : String → Bool
  isfile : String → Bool
  read_def_port : String → Bool → Nat
  check_for_cli : String → Nat → Bool → Bool
  exit_code : List String → Int

/-- One observable side effect of the orchestrator.  The lock vocabulary is
the full acquire/release interface of the Lock/Port Manager (spec 4.2), per
player and per train/test phase, so that "the orchestrator never releases a
lock and never touches the attacker or test locks" is a statement about
traces rather than vacuously true by construction.  `call` is a blocking
`subprocess.call`, `runBoth` the (external) `train_test_both.run_both`
invocation, `checkBeneficial` the deviation-oracle query, `epochInvoked` the
convergence loop handing an epoch to the Epoch Runner. -/
inductive Event where
  | waitForDefLock : String → Bool → Event
  | lockDef : String → Bool → Event
  | lockAtt : String → Bool → Event
  | unlockDef : String → Bool → Event
  | unlockAtt : String → Bool → Event
  | call : List String → Event
  | runBoth : String → String → Nat → String → String → String → Nat → String →
      Nat → Nat → Event
  | checkBeneficial : String → Nat → Bool → Event
  | epochInvoked : Nat → Event
deriving DecidableEq, Repr

/-- Python's `str` on a boolean. -/
def pyStr (b : Bool) : String := if b then "True" else "False"

/-- `are_all_locks_unlocked` (source lines 13-17). -/
def are_all_locks_unlocked (env : Env) (port_lock_name : String) : Bool :=
  env.is_def_unlocked port_lock_name true &&
  env.is_def_unlocked port_lock_name false &&
  env.is_att_unlocked port_lock_name true &&
  env.is_att_unlocked port_lock_name false

/-- The fixed directory list of `check_for_files` (source lines 20-21). -/
def required_dirs : List String :=
  ["depgraphpy4jattvseither", "depgraphpy4jdefvseither", "depgraphpy4jboth",
   "dg4jattcli", "dg4jdefcli", "dg4jnonetcli", "graphs", "simspecs"]

/-- The fixed seed-file list of `check_for_files` (source lines 22-30). -/
def required_files (game_number : Nat) (env_short_name_payoffs : String) :
    List String :=
  ["defaults.json",
   "game_" ++ toString game_number ++ ".json",
   "attNetStrings_" ++ env_short_name_payoffs ++ ".txt",
   "defNetStrings_" ++ env_short_name_payoffs ++ ".txt",
   "attStratStrings_" ++ env_short_name_payoffs ++ ".txt",
   "defStratStrings_" ++ env_short_name_payoffs ++ ".txt",
   "oldAttNetNames_" ++ env_short_name_payoffs ++ ".txt",
   "oldDefNetNames_" ++ env_short_name_payoffs ++ ".txt"]

/-- The `for cur_dir in dirs` loop of `check_for_files` (source lines 31-33):
raise on the first missing directory. -/
def check_dirs (env : Env) : List String → Except String Unit
  | [] => Except.ok ()
  | d :: rest =>
      if !env.isdir d then Except.error ("Missing directory: " ++ d)
      else check_dirs env rest

/-- The `for cur_file in files` loop of `check_for_files` (source lines
34-36): raise on the first missing file (`os.path.exists`). -/
def check_files (env : Env) : List String → Except String Unit
  | [] => Except.ok ()
  | f :: rest =>
      if !env.path_exists f then Except.error ("Missing file: " ++ f)
      else check_files env rest

/-- `check_for_files` (source lines 19-36): all directories are checked, in
order, before any file. -/
def check_for_files (env : Env) (game_number : Nat)
    (env_short_name_payoffs : String) : Except String Unit :=
  match check_dirs env required_dirs with
  | Except.error e => Except.error e
  | Except.ok () =>
      check_files env (required_files game_number env_short_name_payoffs)

/-- Command list built by `run_gambit` (source lines 38-41). -/
def run_gambit_cmd (game_number cur_epoch : Nat)
    (env_short_name_payoffs : String) : List String :=
  ["python3", "gambit_analyze.py", toString game_number, toString cur_epoch,
   env_short_name_payoffs]

/-- Command list built by `run_create_tsv` (source lines 43-46). -/
def run_create_tsv_cmd (game_number cur_epoch : Nat)
    (env_short_name_tsv env_short_name_payoffs : String) : List String :=
  ["python3", "create_tsv_files.py", toString game_number, toString cur_epoch,
   env_short_name_tsv, env_short_name_payoffs]

/-- Command list built by `run_update_strats` (source lines 48-51). -/
def run_update_strats_cmd (env_short_name_tsv port_lock_name : String)
    (new_epoch : Nat) : List String :=
  ["python3", "update_opponent_strats.py", port_lock_name, env_short_name_tsv,
   toString new_epoch]

/-- Command list built by `run_gen_both_payoffs` (source lines 53-56). -/
def run_gen_both_payoffs_cmd (game_number : Nat)
    (env_short_name_payoffs : String) (new_epoch : Nat) : List String :=
  ["python3", "get_both_payoffs_from_game.py", toString game_number,
   env_short_name_payoffs, toString new_epoch]

/-- Command list built by `run_gen_new_cols` (source lines 101-106). -/
def run_gen_new_cols_cmd (env_name_def_net env_name_att_net env_name_both :
    String) (new_col_count new_epoch : Nat) (env_short_name_payoffs : String)
    (is_def_beneficial is_att_beneficial : Bool) (graph_name : String) :
    List String :=
  ["python3", "generate_new_cols.py", env_name_def_net, env_name_att_net,
   env_name_both, toString new_col_count, toString new_epoch,
   env_short_name_payoffs, pyStr is_def_beneficial, pyStr is_att_beneficial,
   graph_name]

/-- Command list built by `run_append_net_names` (source lines 108-113). -/
def run_append_net_names_cmd (env_short_name_payoffs : String)
    (new_epoch : Nat) (def_pkl_pfx att_pkl_pfx : String)
    (is_def_beneficial is_att_beneficial : Bool) : List String :=
  ["python3", "append_net_names.py", env_short_name_payoffs,
   toString new_epoch, def_pkl_pfx, att_pkl_pfx, pyStr is_def_beneficial,
   pyStr is_att_beneficial]

/-- Command list built by `run_add_new_data` (source lines 115-118). -/
def run_add_new_data_cmd (game_number : Nat)
    (env_short_name_payoffs : String) (new_epoch : Nat) : List String :=
  ["python3", "add_new_data.py", toString game_number,
   env_short_name_payoffs, toString new_epoch]

/-- Modelled from the spec: `get_add_data_result_file_name`, imported by the
source from the missing `add_new_data` module.  The spec says a
`PipelineArtifact` is "named deterministically from (game id, epoch, run
identifier)"; any injective deterministic naming serves, and the orchestrator
never parses the name. -/
def get_add_data_result_file_name (game_number new_epoch : Nat)
    (env_short_name_payoffs : String) : String :=
  "game_" ++ toString game_number ++ "_" ++ toString new_epoch ++ "_" ++
    env_short_name_payoffs ++ ".json"

/-- The port advance performed inside `run_train_test_both` (source lines
64-67): add `PORTS_PER_ROUND`, and wrap to exactly `MIN_PORT` when the result
would reach or exceed `MAX_PORT`. -/
def advance_def_port (pc : PortConfig) (def_port : Nat) : Nat :=
  let p := def_port + pc.PORTS_PER_ROUND
  if p ≥ pc.MAX_PORT then pc.MIN_PORT else p

/-- The port handed to training after `k` successive acquisitions starting
from recorded port `p`: `k` iterations of the per-acquisition advance. -/
def port_after (pc : PortConfig) (p k : Nat) : Nat :=
  (advance_def_port pc)^[k] p

/-- The spec's closed-form port formula (spec section 8): after `k`
acquisitions starting at `P` the port is
`MIN_PORT + ((P - MIN_PORT + k*S) mod (MAX_PORT - MIN_PORT))`.  Stated from
the spec's words, to be compared with `port_after`, which is translated from
the source. -/
def spec_port_formula (pc : PortConfig) (p k : Nat) : Nat :=
  pc.MIN_PORT +
    ((p - pc.MIN_PORT + k * pc.PORTS_PER_ROUND) % (pc.MAX_PORT - pc.MIN_PORT))

/-- `run_train_test_both` (source lines 58-71): wait for the defender train
lock, acquire it, advance the recorded defender train port, and hand the new
port to the single external `run_both` process (dispatch mode (a) of spec
4.4). -/
def run_train_test_both (P : Params) (new_epoch : Nat) (env : Env)
    (pc : PortConfig) : List Event :=
  let is_train := true
  let def_port := advance_def_port pc (env.read_def_port P.port_lock_name
    is_train)
  [Event.waitForDefLock P.port_lock_name is_train,
   Event.lockDef P.port_lock_name is_train,
   Event.runBoth P.graph_name P.env_short_name_payoffs new_epoch
     P.env_name_vs_mixed_att P.env_name_vs_mixed_def P.port_lock_name
     def_port P.env_short_name_tsv P.max_timesteps_def P.max_timesteps_att]

/-- `run_epoch` (source lines 120-179): the Epoch Runner.  Returns the event
trace together with either the raised error (duplicate next-epoch artifact)
or the `should_continue` boolean.  Every collaborator invocation is
synchronous in the source (`subprocess.call`, `run_both`,
`check_for_cli`), so the trace order is the execution order. -/
def run_epoch (P : Params) (cur_epoch : Nat) (env : Env) (pc : PortConfig) :
    List Event × Except String Bool :=
  let new_epoch := cur_epoch + 1
  let result_file_name :=
    get_add_data_result_file_name P.game_number new_epoch
      P.env_short_name_payoffs
  if env.isfile result_file_name then
    ([], Except.error ("Cannot run epoch " ++ toString cur_epoch ++ ": " ++
      result_file_name ++ " already exists."))
  else
    let t1 := [Event.call (run_gambit_cmd P.game_number cur_epoch
      P.env_short_name_payoffs)]
    let t2 := t1 ++ [Event.call (run_create_tsv_cmd P.game_number cur_epoch
      P.env_short_name_tsv P.env_short_name_payoffs)]
    let t3 := t2 ++ [Event.call (run_update_strats_cmd P.env_short_name_tsv
      P.port_lock_name new_epoch)]
    let t4 := t3 ++ [Event.call (run_gen_both_payoffs_cmd P.game_number
      P.env_short_name_payoffs new_epoch)]
    let t5 := t4 ++ run_train_test_both P new_epoch env pc
    let is_def_beneficial :=
      env.check_for_cli P.env_short_name_payoffs new_epoch true
    let is_att_beneficial :=
      env.check_for_cli P.env_short_name_payoffs new_epoch false
    let t6 := t5 ++
      [Event.checkBeneficial P.env_short_name_payoffs new_epoch true,
       Event.checkBeneficial P.env_short_name_payoffs new_epoch false]
    if !is_def_beneficial && !is_att_beneficial then
      (t6, Except.ok false)
    else
      let t7 := t6 ++ [Event.call (run_gen_new_cols_cmd P.env_name_def_net
        P.env_name_att_net P.env_name_both P.new_col_count new_epoch
        P.env_short_name_payoffs is_def_beneficial is_att_beneficial
        P.graph_name)]
      let t8 := t7 ++ [Event.call (run_append_net_names_cmd
        P.env_short_name_payoffs new_epoch P.def_pkl_pfx P.att_pkl_pfx
        is_def_beneficial is_att_beneficial)]
      let t9 := t8 ++ [Event.call (run_add_new_data_cmd P.game_number
        P.env_short_name_payoffs new_epoch)]
      (t9, Except.ok true)

/-- How the convergence loop ended: converged (Epoch Runner returned
`False`), round budget no longer positive (the loop condition on
`rounds_left` failed), or the modelling fuel ran out while the source loop
would have continued.  Each carries the final `my_epoch`. -/
inductive LoopOutcome where
  | converged : Nat → LoopOutcome
  | ranMaxRounds : Nat → LoopOutcome
  | outOfFuel : Nat → LoopOutcome
deriving DecidableEq, Repr

/-- The `while` condition's round-budget half (source line 193):
`rounds_left is None or rounds_left > 0`. -/
def rounds_left_allows : Option Int → Bool
  | none => true
  | some r => decide (0 < r)

/-- The `while` loop of `main` (source lines 193-204), as a fuel-indexed
recursion; `fuel = 0` with the loop condition still true yields the
`outOfFuel` marker (the source loop may genuinely diverge when the budget is
`None`).  `epochInvoked` records the hand-off of line 196 (the "Will run
epoch" progress line); errors raised inside `run_epoch` propagate and abort
the whole loop, as in the source. -/
def main_loop (P : Params) (env : Env) (pc : PortConfig) :
    Nat → Nat → Option Int → List Event × Except String LoopOutcome
  | 0, my_epoch, rounds_left =>
      if rounds_left_allows rounds_left then
        ([], Except.ok (LoopOutcome.outOfFuel my_epoch))
      else ([], Except.ok (LoopOutcome.ranMaxRounds my_epoch))
  | fuel + 1, my_epoch, rounds_left =>
      if rounds_left_allows rounds_left then
        let r := run_epoch P my_epoch env pc
        match r.2 with
        | Except.error e => (Event.epochInvoked my_epoch :: r.1,
            Except.error e)
        | Except.ok true =>
            let rest := main_loop P env pc fuel (my_epoch + 1)
              (rounds_left.map (fun x => x - 1))
            (Event.epochInvoked my_epoch :: r.1 ++ rest.1, rest.2)
        | Except.ok false =>
            (Event.epochInvoked my_epoch :: r.1,
             Except.ok (LoopOutcome.converged my_epoch))
      else ([], Except.ok (LoopOutcome.ranMaxRounds my_epoch))

/-- Classification: is this event the invocation of one of the conditional
pool-expansion stages 9-11 (`generate_new_cols.py`, `append_net_names.py`,
`add_new_data.py`)? -/
def Event.isExpansionStage : Event → Bool
  | Event.call (_ :: script :: _) =>
      script == "generate_new_cols.py" || script == "append_net_names.py" ||
      script == "add_new_data.py"
  | _ => false

/-- Classification: is this event an operation on the Lock/Port Manager
(wait, acquire or release, for either player and either phase)? -/
def Event.isLockOp : Event → Bool
  | Event.waitForDefLock _ _ => true
  | Event.lockDef _ _ => true
  | Event.lockAtt _ _ => true
  | Event.unlockDef _ _ => true
  | Event.unlockAtt _ _ => true
  | _ => false

/-- Classification: is this event an invocation of an external collaborator
(a subprocess, the train/test pair, or the deviation oracle)? -/
def Event.isCollaborator : Event → Bool
  | Event.call _ => true
  | Event.runBoth _ _ _ _ _ _ _ _ _ _ => true
  | Event.checkBeneficial _ _ _ => true
  | _ => false

/-- Number of times the convergence loop handed an epoch to the Epoch
Runner, read off a trace. -/
def countEpochInvocations (tr : List Event) : Nat :=
  (tr.filter fun e => match e with
    | Event.epochInvoked _ => true
    | _ => false).length

/-- `main` (source lines 181-210): precondition check, lock check, then the
convergence loop. -/
def main (P : Params) (env : Env) (pc : PortConfig) (cur_epoch : Nat)
    (max_new_rounds : Option Int) (fuel : Nat) :
    List Event × Except String LoopOutcome :=
  match check_for_files env P.game_number P.env_short_name_payoffs with
  | Except.error e => ([], Except.error e)
  | Except.ok () =>
      if !are_all_locks_unlocked env P.port_lock_name then
        ([], Except.error ("Lock is being held: " ++ P.port_lock_name))
      else
        main_loop P env pc fuel cur_epoch max_new_rounds

/-- Whitespace characters stripped by Python's `int()` (ASCII model). -/
def isPySpace (c : Char) : Bool :=
  c == ' ' || c == '\t' || c == '\n' || c == '\r' ||
  c == Char.ofNat 11 || c == Char.ofNat 12

/-- Value of an ASCII decimal digit. -/
def digitVal (c : Char) : Option Nat :=
  if c.isDigit then some (c.toNat - '0'.toNat) else none

/-- Continuation of Python's decimal-digit grammar after the first digit:
digits with single underscores allowed between digits (no trailing or
doubled underscore). -/
def parseDigitsRest (acc : Nat) : List Char → Option Nat
  | [] => some acc
  | '_' :: c :: cs =>
      match digitVal c with
      | some d => parseDigitsRest (acc * 10 + d) cs
      | none => none
  | ['_'] => none
  | c :: cs =>
      match digitVal c with
      | some d => parseDigitsRest (acc * 10 + d) cs
      | none => none

/-- Python's nonempty decimal-digit grammar: a digit, then
`parseDigitsRest`. -/
def parseDigits : List Char → Option Nat
  | [] => none
  | c :: cs =>
      match digitVal c with
      | some d => parseDigitsRest d cs
      | none => none

/-- Python's `int(s)` on a string (ASCII model): strip surrounding
whitespace, then an optional sign followed by a nonempty digit string with
optional single underscores between digits; `none` models the `ValueError`
raised on anything else. -/
def pyIntOfString : String → Option Int := fun s =>
  let cs := ((s.toList.dropWhile isPySpace).reverse.dropWhile
    isPySpace).reverse
  match cs with
  | '-' :: rest => (parseDigits rest).map (fun n => -(n : Int))
  | '+' :: rest => (parseDigits rest).map (fun n => (n : Int))
  | rest => (parseDigits rest).map (fun n => (n : Int))

/-- The `MAX_NEW_ROUNDS` handling of the `__main__` block (source lines
242-246): the literal string `"None"` means unbounded, anything else goes
through `int()`, whose `ValueError` aborts the entry point before `main` is
called. -/
def parse_max_new_rounds (s : String) : Except String (Option Int) :=
  if s == "None" then Except.ok none
  else
    match pyIntOfString s with
    | some n => Except.ok (some n)
    | none =>
        Except.error ("invalid literal for int() with base 10: " ++ s)

/-- The `__main__` block from the `MAX_NEW_ROUNDS` parse onwards (source
lines 242-251): parse the seventeenth argument, then call `main` with the
resulting budget.  An `Except.error` outcome is the entry point failing
before `main` is called. -/
def entry_with_max_rounds (P : Params) (env : Env) (pc : PortConfig)
    (cur_epoch : Nat) (fuel : Nat) (max_rounds_arg : String) :
    Except String (List Event × Except String LoopOutcome) :=
  match parse_max_new_rounds max_rounds_arg with
  | Except.error e => Except.error e
  | Except.ok mnr => Except.ok (main P env pc cur_epoch mnr fuel)

/-- Stated from the spec's words (section 4.1), for comparison with
`check_for_files`: fail naming the first missing directory, else the first
missing file, else succeed. -/
def spec_first_missing_resource (env : Env) (game_number : Nat)
    (env_short_name_payoffs : String) : Except String Unit :=
  match required_dirs.find? (fun d => !env.isdir d) with
  | some d => Except.error ("Missing directory: " ++ d)
  | none =>
      match (required_files game_number env_short_name_payoffs).find?
          (fun f => !env.path_exists f) with
      | some f => Except.error ("Missing file: " ++ f)
      | none => Except.ok ()

/-- A concrete parameter record for witnesses, taken from the usage example
in the source's docstring (lines 212-218). -/
def exampleParams : Params :=
  { game_number := 3013
    env_short_name_tsv := "sl29_randNoAndB"
    env_short_name_payoffs := "sl29"
    env_name_def_net := "DepgraphJava29N-v0"
    env_name_att_net := "DepgraphJavaEnvAtt29N-v0"
    env_name_both := "DepgraphJavaEnvBoth29N-v0"
    graph_name := "SepLayerGraph0_noAnd_B.json"
    env_name_vs_mixed_def := "DepgraphJavaEnvVsMixedDef29N-v0"
    env_name_vs_mixed_att := "DepgraphJavaEnvVsMixedAtt29N-v0"
    new_col_count := 400
    def_pkl_pfx := "dg_sl29_dq_mlp_rand_epoch"
    att_pkl_pfx := "dg_sl29_dq_mlp_rand_epoch"
    port_lock_name := "s29"
    max_timesteps_def := 700000
    max_timesteps_att := 700000 }

/-- A concrete environment for witnesses: everything present and unlocked,
no next-epoch artifact, no beneficial deviation. -/
def quietEnv : Env :=
  { is_def_unlocked := fun _ _ => true
    is_att_unlocked := fun _ _ => true
    isdir := fun _ => true
    path_exists := fun _ => true
    isfile := fun _ => false
    read_def_port := fun _ _ => 25336
    check_for_cli := fun _ _ _ => false
    exit_code := fun _ => 0 }

/-- A concrete port configuration for witnesses. -/
def examplePorts : PortConfig :=
  { MIN_PORT := 25333, MAX_PORT := 25433, PORTS_PER_ROUND := 4 }

/-- `quietEnv` with the defender train lock held. -/
def lockedEnv : Env :=
  { quietEnv with is_def_unlocked := fun _ _ => false }

/-- `quietEnv` with every result artifact already present. -/
def dupEnv : Env :=
  { quietEnv with isfile := fun _ => true }

/-- `quietEnv` with the `graphs` directory missing. -/
def envMissingDir : Env :=
  { quietEnv with isdir := fun d => d != "graphs" }

/-- `quietEnv` with the deviation oracle always reporting a beneficial
deviation. -/
def busyEnv : Env :=
  { quietEnv with check_for_cli := fun _ _ _ => true }

/-- Claim C1: for every run identifier, if any of the four named locks
({defender, attacker} x {train, test}) is held when `main` starts, `main`
fails (its result is an error) before invoking any collaborator stage, with
no side effects performed (its event trace is empty). -/
theorem main_lock_held_aborts (P : Params) (env : Env) (pc : PortConfig)
    (cur_epoch : Nat) (mnr : Option Int) (fuel : Nat)
    (h : are_all_locks_unlocked env P.port_lock_name = false) :
    (main P env pc cur_epoch mnr fuel).1 = [] ∧
    ∃ e, (main P env pc cur_epoch mnr fuel).2 = Except.error e := by
  unfold main
  cases hc : check_for_files env P.game_number P.env_short_name_payoffs with
  | error e => exact ⟨rfl, e, rfl⟩
  | ok u =>
      cases u
      rw [h]
      exact ⟨rfl, _, rfl⟩

/-- Witness for C1: with the defender train lock held, the concrete run
aborts with an empty trace. -/
theorem main_lock_held_aborts_witness :
    (main exampleParams lockedEnv examplePorts 17 (some 1) 10).1 = [] ∧
    ∃ e, (main exampleParams lockedEnv examplePorts 17 (some 1) 10).2 =
      Except.error e :=
  main_lock_held_aborts exampleParams lockedEnv examplePorts 17 (some 1) 10
    rfl

/-- Claim C3: at every epoch `N` at which `run_epoch` is entered, if the
result artifact for epoch `N+1` already exists, `run_epoch` raises before
invoking any collaborator stage (its trace is empty), and the raise
propagates out of the convergence loop, aborting the whole run. -/
theorem run_epoch_duplicate_artifact_aborts (P : Params) (env : Env)
    (pc : PortConfig) (my_epoch : Nat) (rl : Option Int) (fuel : Nat)
    (hfile : env.isfile (get_add_data_result_file_name P.game_number
      (my_epoch + 1) P.env_short_name_payoffs) = true)
    (hcond : rounds_left_allows rl = true) :
    (run_epoch P my_epoch env pc).1 = [] ∧
    (run_epoch P my_epoch env pc).2 = Except.error ("Cannot run epoch " ++
      toString my_epoch ++ ": " ++ get_add_data_result_file_name
      P.game_number (my_epoch + 1) P.env_short_name_payoffs ++
      " already exists.") ∧
    main_loop P env pc (fuel + 1) my_epoch rl =
      ([Event.epochInvoked my_epoch],
       Except.error ("Cannot run epoch " ++ toString my_epoch ++ ": " ++
         get_add_data_result_file_name P.game_number (my_epoch + 1)
         P.env_short_name_payoffs ++ " already exists.")) := by
  refine ⟨?_, ?_, ?_⟩ <;>
    simp [main_loop, run_epoch, hfile, hcond]

/-- Witness for C3: with the epoch-18 artifact present, the concrete epoch
17 raises and the loop aborts. -/
theorem run_epoch_duplicate_artifact_aborts_witness :
    (run_epoch exampleParams 17 dupEnv examplePorts).1 = [] ∧
    (run_epoch exampleParams 17 dupEnv examplePorts).2 =
      Except.error ("Cannot run epoch " ++ toString 17 ++ ": " ++
        get_add_data_result_file_name 3013 (17 + 1) "sl29" ++
        " already exists.") ∧
    main_loop exampleParams dupEnv examplePorts (3 + 1) 17 (some 2) =
      ([Event.epochInvoked 17],
       Except.error ("Cannot run epoch " ++ toString 17 ++ ": " ++
         get_add_data_result_file_name 3013 (17 + 1) "sl29" ++
         " already exists.")) :=
  run_epoch_duplicate_artifact_aborts exampleParams dupEnv examplePorts 17
    (some 2) 3 rfl rfl

/-- Claim C4: in every epoch whose two beneficial-deviation flags are both
false, `run_epoch` returns the stop signal (`False`), the pool-expansion
stages 9-11 are not invoked, and the convergence loop performs no further
epoch invocations (it returns `converged` right after this epoch). -/
theorem run_epoch_converged_stops (P : Params) (env : Env) (pc : PortConfig)
    (my_epoch : Nat) (rl : Option Int) (fuel : Nat)
    (hfile : env.isfile (get_add_data_result_file_name P.game_number
      (my_epoch + 1) P.env_short_name_payoffs) = false)
    (hdef : env.check_for_cli P.env_short_name_payoffs (my_epoch + 1) true =
      false)
    (hatt : env.check_for_cli P.env_short_name_payoffs (my_epoch + 1) false =
      false)
    (hcond : rounds_left_allows rl = true) :
    (run_epoch P my_epoch env pc).2 = Except.ok false ∧
    (run_epoch P my_epoch env pc).1.filter Event.isExpansionStage = [] ∧
    main_loop P env pc (fuel + 1) my_epoch rl =
      (Event.epochInvoked my_epoch :: (run_epoch P my_epoch env pc).1,
       Except.ok (LoopOutcome.converged my_epoch)) := by
  refine ⟨?_, ?_, ?_⟩ <;>
    simp [main_loop, run_epoch, run_train_test_both, Event.isExpansionStage,
      run_gambit_cmd, run_create_tsv_cmd, run_update_strats_cmd,
      run_gen_both_payoffs_cmd, hfile, hdef, hatt, hcond]

/-- Witness for C4: the concrete quiet run stops at epoch 17 without
invoking the expansion stages. -/
theorem run_epoch_converged_stops_witness :
    (run_epoch exampleParams 17 quietEnv examplePorts).2 = Except.ok false ∧
    (run_epoch exampleParams 17 quietEnv
      examplePorts).1.filter Event.isExpansionStage = [] ∧
    main_loop exampleParams quietEnv examplePorts (0 + 1) 17 none =
      (Event.epochInvoked 17 ::
        (run_epoch exampleParams 17 quietEnv examplePorts).1,
       Except.ok (LoopOutcome.converged 17)) :=
  run_epoch_converged_stops exampleParams quietEnv examplePorts 17 none 0
    rfl rfl rfl rfl

/-- Claim C10: in every epoch the orchestrator's lock operations are exactly
a wait on the defender train lock followed by its acquisition (none at all
when the duplicate-artifact guard fires): it never acquires the defender
test lock or either attacker lock, and never performs any release. -/
theorem run_epoch_lock_discipline (P : Params) (env : Env) (pc : PortConfig)
    (my_epoch : Nat) :
    (run_epoch P my_epoch env pc).1.filter Event.isLockOp =
      (if env.isfile (get_add_data_result_file_name P.game_number
          (my_epoch + 1) P.env_short_name_payoffs) then []
       else [Event.waitForDefLock P.port_lock_name true,
             Event.lockDef P.port_lock_name true]) := by
  by_cases hf : env.isfile (get_add_data_result_file_name P.game_number
      (my_epoch + 1) P.env_short_name_payoffs)
  · simp [run_epoch, hf]
  · by_cases hb : (!env.check_for_cli P.env_short_name_payoffs
        (my_epoch + 1) true &&
        !env.check_for_cli P.env_short_name_payoffs (my_epoch + 1) false) =
        true <;>
      simp [run_epoch, run_train_test_both, Event.isLockOp, hf, hb]

/-- Claim C7: within one epoch the collaborator stages appear in the trace
in the fixed order of spec 4.3 — equilibrium solve, strategy export,
opponent-strategy update, payoff sampling, the (lock-protected) concurrent
train/test pair, the deviation check for the defender then the attacker,
then, only when some deviation is beneficial, column expansion, name append
and data ingestion.  All invocations are synchronous in the source, so trace
order is completion order: no stage starts before its predecessor exits. -/
theorem run_epoch_stage_order (P : Params) (cur_epoch : Nat) (env : Env)
    (pc : PortConfig)
    (hfile : env.isfile (get_add_data_result_file_name P.game_number
      (cur_epoch + 1) P.env_short_name_payoffs) = false) :
    (run_epoch P cur_epoch env pc).1 =
      [Event.call (run_gambit_cmd P.game_number cur_epoch
         P.env_short_name_payoffs),
       Event.call (run_create_tsv_cmd P.game_number cur_epoch
         P.env_short_name_tsv P.env_short_name_payoffs),
       Event.call (run_update_strats_cmd P.env_short_name_tsv
         P.port_lock_name (cur_epoch + 1)),
       Event.call (run_gen_both_payoffs_cmd P.game_number
         P.env_short_name_payoffs (cur_epoch + 1)),
       Event.waitForDefLock P.port_lock_name true,
       Event.lockDef P.port_lock_name true,
       Event.runBoth P.graph_name P.env_short_name_payoffs (cur_epoch + 1)
         P.env_name_vs_mixed_att P.env_name_vs_mixed_def P.port_lock_name
         (advance_def_port pc (env.read_def_port P.port_lock_name true))
         P.env_short_name_tsv P.max_timesteps_def P.max_timesteps_att,
       Event.checkBeneficial P.env_short_name_payoffs (cur_epoch + 1) true,
       Event.checkBeneficial P.env_short_name_payoffs (cur_epoch + 1)
         false] ++
      (if env.check_for_cli P.env_short_name_payoffs (cur_epoch + 1) true ||
          env.check_for_cli P.env_short_name_payoffs (cur_epoch + 1) false
       then
        [Event.call (run_gen_new_cols_cmd P.env_name_def_net
           P.env_name_att_net P.env_name_both P.new_col_count
           (cur_epoch + 1) P.env_short_name_payoffs
           (env.check_for_cli P.env_short_name_payoffs (cur_epoch + 1) true)
           (env.check_for_cli P.env_short_name_payoffs (cur_epoch + 1)
             false) P.graph_name),
         Event.call (run_append_net_names_cmd P.env_short_name_payoffs
           (cur_epoch + 1) P.def_pkl_pfx P.att_pkl_pfx
           (env.check_for_cli P.env_short_name_payoffs (cur_epoch + 1) true)
           (env.check_for_cli P.env_short_name_payoffs (cur_epoch + 1)
             false)),
         Event.call (run_add_new_data_cmd P.game_number
           P.env_short_name_payoffs (cur_epoch + 1))]
       else []) := by
  by_cases hd : env.check_for_cli P.env_short_name_payoffs (cur_epoch + 1)
      true = true <;>
    by_cases ha : env.check_for_cli P.env_short_name_payoffs (cur_epoch + 1)
      false = true <;>
    simp_all [run_epoch, run_train_test_both]

/-- Witness for C7: the full stage order of the concrete epoch 17 with both
deviations beneficial. -/
theorem run_epoch_stage_order_witness :
    (run_epoch exampleParams 17 busyEnv examplePorts).1 =
      [Event.call (run_gambit_cmd 3013 17 "sl29"),
       Event.call (run_create_tsv_cmd 3013 17 "sl29_randNoAndB" "sl29"),
       Event.call (run_update_strats_cmd "sl29_randNoAndB" "s29" (17 + 1)),
       Event.call (run_gen_both_payoffs_cmd 3013 "sl29" (17 + 1)),
       Event.waitForDefLock "s29" true,
       Event.lockDef "s29" true,
       Event.runBoth "SepLayerGraph0_noAnd_B.json" "sl29" (17 + 1)
         "DepgraphJavaEnvVsMixedAtt29N-v0" "DepgraphJavaEnvVsMixedDef29N-v0"
         "s29" (advance_def_port examplePorts
           (busyEnv.read_def_port "s29" true)) "sl29_randNoAndB" 700000
         700000,
       Event.checkBeneficial "sl29" (17 + 1) true,
       Event.checkBeneficial "sl29" (17 + 1) false] ++
      (if busyEnv.check_for_cli "sl29" (17 + 1) true ||
          busyEnv.check_for_cli "sl29" (17 + 1) false then
        [Event.call (run_gen_new_cols_cmd "DepgraphJava29N-v0"
           "DepgraphJavaEnvAtt29N-v0" "DepgraphJavaEnvBoth29N-v0" 400
           (17 + 1) "sl29" (busyEnv.check_for_cli "sl29" (17 + 1) true)
           (busyEnv.check_for_cli "sl29" (17 + 1) false)
           "SepLayerGraph0_noAnd_B.json"),
         Event.call (run_append_net_names_cmd "sl29" (17 + 1)
           "dg_sl29_dq_mlp_rand_epoch" "dg_sl29_dq_mlp_rand_epoch"
           (busyEnv.check_for_cli "sl29" (17 + 1) true)
           (busyEnv.check_for_cli "sl29" (17 + 1) false)),
         Event.call (run_add_new_data_cmd 3013 "sl29" (17 + 1))]
       else []) :=
  run_epoch_stage_order exampleParams 17 busyEnv examplePorts rfl

/-- Claim C8: the orchestrator's control flow and results are independent of
collaborator exit statuses.  Two environments that differ only in the exit
codes their collaborator processes report give identical `run_epoch` and
`main` behaviour (the source discards every `subprocess.call` return
value). -/
theorem run_epoch_ignores_exit_codes (P : Params) (cur_epoch : Nat)
    (env : Env) (pc : PortConfig) (f : List String → Int) (c : Nat)
    (mnr : Option Int) (fuel : Nat) :
    run_epoch P cur_epoch { env with exit_code := f } pc =
      run_epoch P cur_epoch env pc ∧
    main P { env with exit_code := f } pc c mnr fuel =
      main P env pc c mnr fuel := by
  constructor
  · rfl
  · have hloop : ∀ n e rl,
        main_loop P { env with exit_code := f } pc n e rl =
          main_loop P env pc n e rl := by
      intro n
      induction n with
      | zero => intro e rl; rfl
      | succ m ih =>
          intro e rl
          simp only [main_loop]
          rw [show run_epoch P e { env with exit_code := f } pc =
            run_epoch P e env pc from rfl]
          rw [ih]
    unfold main
    rw [show check_for_files { env with exit_code := f } P.game_number
      P.env_short_name_payoffs =
      check_for_files env P.game_number P.env_short_name_payoffs from rfl]
    cases check_for_files env P.game_number P.env_short_name_payoffs with
    | error e => rfl
    | ok u =>
        cases u
        rw [show are_all_locks_unlocked { env with exit_code := f }
          P.port_lock_name = are_all_locks_unlocked env P.port_lock_name
          from rfl]
        by_cases h : are_all_locks_unlocked env P.port_lock_name = true
        · simp [h, hloop]
        · simp only [Bool.not_eq_true] at h
          simp [h]

/-- The Epoch Runner itself never emits an epoch-invocation marker; those
come only from the convergence loop. -/
theorem run_epoch_no_epoch_invoked (P : Params) (my_epoch : Nat) (env : Env)
    (pc : PortConfig) :
    countEpochInvocations (run_epoch P my_epoch env pc).1 = 0 := by
  by_cases hf : env.isfile (get_add_data_result_file_name P.game_number
      (my_epoch + 1) P.env_short_name_payoffs)
  · simp [run_epoch, hf, countEpochInvocations]
  · by_cases hb : (!env.check_for_cli P.env_short_name_payoffs
        (my_epoch + 1) true &&
        !env.check_for_cli P.env_short_name_payoffs (my_epoch + 1) false) =
        true <;>
      simp [run_epoch, run_train_test_both, countEpochInvocations, hf, hb]

/-- Epoch-invocation counts add across trace concatenation. -/
theorem countEpochInvocations_append (a b : List Event) :
    countEpochInvocations (a ++ b) =
      countEpochInvocations a + countEpochInvocations b := by
  simp [countEpochInvocations, List.filter_append]

/-- Prepending an epoch-invocation marker adds one to the count. -/
theorem countEpochInvocations_cons_invoked (n : Nat) (l : List Event) :
    countEpochInvocations (Event.epochInvoked n :: l) =
      countEpochInvocations l + 1 := by
  simp [countEpochInvocations, List.filter_cons]

/-- Claim C5: for every non-null round budget `k`, the convergence loop
invokes the Epoch Runner at most `k` times, whatever the environment does
and however the run ends (convergence, error, budget, or fuel). -/
theorem main_budget_bounds_epochs (P : Params) (env : Env) (pc : PortConfig)
    (cur_epoch : Nat) (k : Int) (fuel : Nat) :
    countEpochInvocations (main P env pc cur_epoch (some k) fuel).1 ≤
      k.toNat := by
  have hloop : ∀ n e (j : Int),
      countEpochInvocations (main_loop P env pc n e (some j)).1 ≤
        j.toNat := by
    intro n
    induction n with
    | zero =>
        intro e j
        by_cases hc : rounds_left_allows (some j) = true <;>
          simp [main_loop, hc, countEpochInvocations]
    | succ m ih =>
        intro e j
        by_cases hc : rounds_left_allows (some j) = true
        · have hj : 0 < j := by
            simpa [rounds_left_allows] using hc
          simp only [main_loop, hc, if_true]
          cases hr : (run_epoch P e env pc).2 with
          | error err =>
              simp [hr, countEpochInvocations_cons_invoked,
                run_epoch_no_epoch_invoked]
              omega
          | ok b =>
              cases b with
              | true =>
                  simp only [hr, Option.map_some']
                  have := ih (e + 1) (j - 1)
                  simp [countEpochInvocations_cons_invoked,
                    countEpochInvocations_append,
                    run_epoch_no_epoch_invoked]
                  omega
              | false =>
                  simp [hr, countEpochInvocations_cons_invoked,
                    run_epoch_no_epoch_invoked]
                  omega
        · simp [main_loop, hc, countEpochInvocations]
  unfold main
  cases check_for_files env P.game_number P.env_short_name_payoffs with
  | error e => simp [countEpochInvocations]
  | ok u =>
      cases u
      by_cases h : are_all_locks_unlocked env P.port_lock_name = true
      · simp only [h]
        simpa using hloop fuel cur_epoch k
      · simp only [Bool.not_eq_true] at h
        simp [h, countEpochInvocations]

/-- The directory loop raises on exactly the first missing directory of the
list, in list order. -/
theorem check_dirs_eq_find (env : Env) (L : List String) :
    check_dirs env L =
      match L.find? (fun d => !env.isdir d) with
      | some d => Except.error ("Missing directory: " ++ d)
      | none => Except.ok () := by
  induction L with
  | nil => rfl
  | cons d rest ih =>
      by_cases h : env.isdir d = true <;>
        simp [check_dirs, List.find?, h, ih]

/-- The file loop raises on exactly the first missing file of the list, in
list order. -/
theorem check_files_eq_find (env : Env) (L : List String) :
    check_files env L =
      match L.find? (fun f => !env.path_exists f) with
      | some f => Except.error ("Missing file: " ++ f)
      | none => Except.ok () := by
  induction L with
  | nil => rfl
  | cons f rest ih =>
      by_cases h : env.path_exists f = true <;>
        simp [check_files, List.find?, h, ih]

/-- Claim C6: the precondition checker fails naming the first missing
directory, else the first missing file (directories before files, each in
the fixed source order), and succeeds when everything exists; it performs
only read-only existence queries, and when it fails, `main` stops with that
error and an empty event trace, before any collaborator stage runs. -/
theorem check_for_files_first_missing (env : Env) (g : Nat) (p : String) :
    check_for_files env g p = spec_first_missing_resource env g p ∧
    (∀ (P : Params) (pc : PortConfig) (c : Nat) (mnr : Option Int)
        (fuel : Nat) (e : String),
      check_for_files env P.game_number P.env_short_name_payoffs =
        Except.error e →
      main P env pc c mnr fuel = ([], Except.error e)) := by
  constructor
  · unfold check_for_files spec_first_missing_resource
    rw [check_dirs_eq_find, check_files_eq_find]
    cases required_dirs.find? (fun d => !env.isdir d) with
    | some d => rfl
    | none => rfl
  · intro P pc c mnr fuel e he
    unfold main
    rw [he]

/-- Witness for C6: with only the `graphs` directory missing, the checker
names it and the concrete `main` stops with that error and no events. -/
theorem check_for_files_first_missing_witness :
    check_for_files envMissingDir 3013 "sl29" =
      spec_first_missing_resource envMissingDir 3013 "sl29" ∧
    main exampleParams envMissingDir examplePorts 17 none 5 =
      ([], Except.error "Missing directory: graphs") :=
  ⟨(check_for_files_first_missing envMissingDir 3013 "sl29").1,
   (check_for_files_first_missing envMissingDir 3013 "sl29").2 exampleParams
     examplePorts 17 none 5 "Missing directory: graphs" (by rfl)⟩

/-- Counterexample to C2 as stated: with an admissible port configuration
(MIN_PORT 10, MAX_PORT 20, stride 4) and a starting port 17 inside the
range, one acquisition yields port 10 (the source wraps to exactly
`MIN_PORT`), while the spec's modular formula yields 11. -/
theorem port_formula_counterexample :
    (PortConfig.mk 10 20 4).MIN_PORT ≤ 17 ∧
    17 < (PortConfig.mk 10 20 4).MAX_PORT ∧
    port_after (PortConfig.mk 10 20 4) 17 1 = 10 ∧
    spec_port_formula (PortConfig.mk 10 20 4) 17 1 = 11 ∧
    port_after (PortConfig.mk 10 20 4) 17 1 ≠
      spec_port_formula (PortConfig.mk 10 20 4) 17 1 := by
  decide

/-- One aligned advance equals one modular step: for an offset `e` below the
range that the stride divides, the source's add-then-wrap-to-MIN_PORT agrees
with adding the stride modulo the range. -/
theorem advance_def_port_step (pc : PortConfig) (e : Nat)
    (hR : pc.MIN_PORT < pc.MAX_PORT)
    (he : e < pc.MAX_PORT - pc.MIN_PORT)
    (hse : pc.PORTS_PER_ROUND ∣ e)
    (hsR : pc.PORTS_PER_ROUND ∣ (pc.MAX_PORT - pc.MIN_PORT)) :
    advance_def_port pc (pc.MIN_PORT + e) =
      pc.MIN_PORT +
        ((e + pc.PORTS_PER_ROUND) % (pc.MAX_PORT - pc.MIN_PORT)) := by
  unfold advance_def_port
  by_cases hc : pc.MIN_PORT + e + pc.PORTS_PER_ROUND ≥ pc.MAX_PORT
  · have hs0 : 0 < pc.PORTS_PER_ROUND := by
      rcases Nat.eq_zero_or_pos pc.PORTS_PER_ROUND with h0 | h0
      · omega
      · exact h0
    have hdvd : pc.PORTS_PER_ROUND ∣
        (pc.MAX_PORT - pc.MIN_PORT - e) := Nat.dvd_sub' hsR hse
    have hle : pc.PORTS_PER_ROUND ≤ pc.MAX_PORT - pc.MIN_PORT - e :=
      Nat.le_of_dvd (by omega) hdvd
    have heq : e + pc.PORTS_PER_ROUND = pc.MAX_PORT - pc.MIN_PORT := by
      omega
    rw [heq]
    simp [hc, Nat.mod_self]
  · have hlt : e + pc.PORTS_PER_ROUND < pc.MAX_PORT - pc.MIN_PORT := by
      omega
    rw [Nat.mod_eq_of_lt hlt]
    simp only [ge_iff_le, not_le] at hc
    simp only [if_neg (by omega : ¬ pc.MAX_PORT ≤
      pc.MIN_PORT + e + pc.PORTS_PER_ROUND)]
    omega

/-- Claim C2 amended: when the stride `PORTS_PER_ROUND` divides the range
`MAX_PORT - MIN_PORT` and the starting port `P` is stride-aligned
(`PORTS_PER_ROUND` divides `P - MIN_PORT`), the port after `k` acquisitions
equals `MIN_PORT + ((P - MIN_PORT + k*S) mod (MAX_PORT - MIN_PORT))`.
For unaligned ports the source's wrap to exactly `MIN_PORT` and the spec's
modular formula disagree (see the counterexample). -/
theorem port_after_eq_spec_formula (pc : PortConfig) (p k : Nat)
    (hlo : pc.MIN_PORT ≤ p) (hhi : p < pc.MAX_PORT)
    (hsR : pc.PORTS_PER_ROUND ∣ (pc.MAX_PORT - pc.MIN_PORT))
    (hal : pc.PORTS_PER_ROUND ∣ (p - pc.MIN_PORT)) :
    port_after pc p k = spec_port_formula pc p k := by
  have hR : pc.MIN_PORT < pc.MAX_PORT := lt_of_le_of_lt hlo hhi
  have hd : p - pc.MIN_PORT < pc.MAX_PORT - pc.MIN_PORT := by omega
  have key : ∀ j, port_after pc p j =
      pc.MIN_PORT + ((p - pc.MIN_PORT + j * pc.PORTS_PER_ROUND) %
        (pc.MAX_PORT - pc.MIN_PORT)) := by
    intro j
    induction j with
    | zero =>
        simp only [port_after, Function.iterate_zero, id_eq, Nat.zero_mul,
          Nat.add_zero]
        rw [Nat.mod_eq_of_lt hd]
        omega
    | succ n ih =>
        have hdvd_e : pc.PORTS_PER_ROUND ∣
            ((p - pc.MIN_PORT + n * pc.PORTS_PER_ROUND) %
              (pc.MAX_PORT - pc.MIN_PORT)) := by
          rw [Nat.dvd_mod_iff hsR]
          exact Nat.dvd_add hal (dvd_mul_left _ _)
        have he : (p - pc.MIN_PORT + n * pc.PORTS_PER_ROUND) %
            (pc.MAX_PORT - pc.MIN_PORT) < pc.MAX_PORT - pc.MIN_PORT :=
          Nat.mod_lt _ (by omega)
        rw [port_after, Function.iterate_succ_apply', ← port_after, ih]
        rw [advance_def_port_step pc _ hR he hdvd_e hsR]
        rw [Nat.mod_add_mod]
        congr 2
        ring
  rw [key k]
  rfl

/-- Witness for the amended C2: with range 100 and stride 4, an aligned
start 25341 agrees with the modular formula after 26 acquisitions. -/
theorem port_after_eq_spec_formula_witness :
    examplePorts.MIN_PORT ≤ 25341 ∧ 25341 < examplePorts.MAX_PORT ∧
    examplePorts.PORTS_PER_ROUND ∣
      (examplePorts.MAX_PORT - examplePorts.MIN_PORT) ∧
    examplePorts.PORTS_PER_ROUND ∣ (25341 - examplePorts.MIN_PORT) ∧
    port_after examplePorts 25341 26 = spec_port_formula examplePorts 25341
      26 :=
  ⟨by decide, by decide, by decide, by decide,
   port_after_eq_spec_formula examplePorts 25341 26 (by decide) (by decide)
     (by decide) (by decide)⟩

/-- Claim C9: the optional maximum-rounds argument is treated as unbounded
exactly when it is the literal string `"None"`; any other string that
Python's `int()` rejects makes the entry point fail before `main` is called,
and an integer string yields the bounded budget `some n`. -/
theorem max_rounds_arg_spec (P : Params) (env : Env) (pc : PortConfig)
    (cur_epoch fuel : Nat) (s : String) :
    (parse_max_new_rounds s = Except.ok none ↔ s = "None") ∧
    (∀ n : Int, s ≠ "None" → pyIntOfString s = some n →
      entry_with_max_rounds P env pc cur_epoch fuel s =
        Except.ok (main P env pc cur_epoch (some n) fuel)) ∧
    (s ≠ "None" → pyIntOfString s = none →
      entry_with_max_rounds P env pc cur_epoch fuel s =
        Except.error ("invalid literal for int() with base 10: " ++ s)) := by
  refine ⟨?_, ?_, ?_⟩
  · by_cases hs : s = "None"
    · simp [parse_max_new_rounds, hs]
    · have hbeq : (s == "None") = false := by simp [hs]
      rcases hpy : pyIntOfString s with _ | n <;>
        simp [parse_max_new_rounds, hbeq, hpy, hs]
  · intro n hs hpy
    have hbeq : (s == "None") = false := by simp [hs]
    simp [entry_with_max_rounds, parse_max_new_rounds, hbeq, hpy]
  · intro hs hpy
    have hbeq : (s == "None") = false := by simp [hs]
    simp [entry_with_max_rounds, parse_max_new_rounds, hbeq, hpy]

/-- Witness for C9: `"None"` is unbounded, `"1"` is the bounded budget 1,
and the non-integer string `"x7"` fails before `main`. -/
theorem max_rounds_arg_spec_witness :
    parse_max_new_rounds "None" = Except.ok none ∧
    entry_with_max_rounds exampleParams quietEnv examplePorts 17 1 "1" =
      Except.ok (main exampleParams quietEnv examplePorts 17 (some 1) 1) ∧
    entry_with_max_rounds exampleParams quietEnv examplePorts 17 1 "x7" =
      Except.error ("invalid literal for int() with base 10: " ++ "x7") :=
  ⟨(max_rounds_arg_spec exampleParams quietEnv examplePorts 17 1
      "None").1.mpr rfl,
   (max_rounds_arg_spec exampleParams quietEnv examplePorts 17 1 "1").2.1 1
     (by decide) (by decide),
   (max_rounds_arg_spec exampleParams quietEnv examplePorts 17 1 "x7").2.2
     (by decide) (by decide)⟩

end MasterDQ
